import Mathlib

/-!
Verification development for the drilling-permit scraper
(src/main.py, src/scraper.py).

The core logic lives in src/scraper.py and is shallowly embedded here:
  - parse_results_table   (scraper.py lines 20-76)
  - get_county_codes      (scraper.py lines 12-18)
  - scrape_permits        (scraper.py lines 79-141)
  - download_plat_files   (scraper.py lines 146-234)

External libraries are abstracted at their call boundary:
  - BeautifulSoup: a page is modelled by the tree data the code actually
    queries (the DataGrid table, its tbody, the direct tr children, each
    row's th/td results, and inside the first cell the first anchor and the
    first select with its options).
  - json.loads: modelled by its outcome on the option's value attribute
    (decode error, a JSON object with string fields, or a valid non-object
    JSON value).  Object field values are used by the code only through
    value_json.get('url',''), so string-valued fields suffice.
  - Playwright: every session call is a suspension point that either
    succeeds or raises; a session model records the outcome of each call
    and the page renders the site would serve.  Each modelled call also
    emits an event, so theorems can speak about which interactions happen.

Python exceptions are modelled by Except String / an Option String error
channel; a raised, uncaught exception is an Except.error result.
-/

namespace Scraper

/-! ### Python string primitives used by scraper.py -/

/-- Python str.strip() on the whitespace the scraped texts contain. -/
def pyStrip (s : String) : String := s.trim

/-- Whether `pat` is a prefix of `s`, on character lists. -/
def charListPrefix : List Char → List Char → Bool
  | [], _ => true
  | _ :: _, [] => false
  | p :: ps, c :: cs => p == c && charListPrefix ps cs

/-- Whether `pat` occurs as a contiguous substring of `s`, on character
lists: tested at every suffix. -/
def charListContains (pat : List Char) : List Char → Bool
  | [] => charListPrefix pat []
  | c :: rest => charListPrefix pat (c :: rest) || charListContains pat rest

/-- Python substring containment: the test `'Images' in option.text`. -/
def pyContains (s pat : String) : Bool := charListContains pat.data s.data

/-- Python `' '.join(s.split())`: split on whitespace runs, drop empties,
rejoin with single spaces. -/
def pySplitJoin (s : String) : String :=
  String.intercalate " " ((s.split Char.isWhitespace).filter (fun t => t ≠ ""))

/-- scraper.py line 71-72: cell-text normalization
`cols[i].text.strip().replace('\n',' ').replace('\r','').replace('\xa0',' ').strip()`
followed by `' '.join(text_content.split())`. -/
def normalizeCellText (s : String) : String :=
  pySplitJoin (((((pyStrip s).replace "\n" " ").replace "\r" "").replace "\u00A0" " ").trim)

/-- Python os.path.join on two components. -/
def pyPathJoin (a b : String) : String := a ++ "/" ++ b

/-! ### Python dict model (insertion-ordered, update-in-place) -/

/-- A PermitRecord is the Python dict `permit_data`: an insertion-ordered
mapping from field name to field value. -/
abbrev PermitRecord := List (String × String)

/-- Python `d[k] = v`: update in place when the key exists, else append. -/
def dictSet (d : List (String × String)) (k v : String) : List (String × String) :=
  if d.any (fun kv => kv.1 = k) then
    d.map (fun kv => if kv.1 = k then (k, v) else kv)
  else d ++ [(k, v)]

/-- Python `d.get(k, dflt)`. -/
def dictGetD (d : List (String × String)) (k dflt : String) : String :=
  match d.find? (fun kv => kv.1 = k) with
  | some kv => kv.2
  | none => dflt

/-! ### json.loads abstraction (scraper.py line 64) -/

/-- Outcome of `json.loads` on an option's `value` attribute string.
`decodeError` is a raised json.JSONDecodeError; `obj` is a JSON object
(field values kept as the strings the code reads via .get); `nonObj` is
valid JSON that is not an object (list, number, string, ...), on which the
subsequent `value_json.get('url','')` raises AttributeError. -/
inductive JsonLoads where
  | decodeError
  | obj (fields : List (String × String))
  | nonObj
deriving DecidableEq, Repr

/-! ### DOM model: what parse_results_table reads from the soup -/

/-- One option element of the first select in the row's first cell.
`value` is the `value` attribute: `none` when absent (then `option['value']`
raises KeyError, which the code catches), otherwise the json.loads outcome
on the attribute string. -/
structure OptionTag where
  text : String
  value : Option JsonLoads
deriving DecidableEq, Repr

/-- One td cell. `aText` is the text of `cell.find('a')` when an anchor
exists; `selectOpts` the options of `cell.find('select')` when a select
exists; `text` is `cell.text`. -/
structure Cell where
  aText : Option String
  selectOpts : Option (List OptionTag)
  text : String
deriving DecidableEq, Repr

/-- One tr row: the texts of its th descendants (`find_all('th')`) and its
td descendants (`find_all('td')`). -/
structure Tr where
  thTexts : List String
  tds : List Cell
deriving DecidableEq, Repr

/-- The tbody of the results table; `trs` is
`table_body.find_all('tr', recursive=False)` — direct children only. -/
structure Tbody where
  trs : List Tr
deriving DecidableEq, Repr

/-- The table found by `soup.find('table', {'class': 'DataGrid'})`;
`tbody` is `results_table.find('tbody')`, `none` when absent. -/
structure DataGridTable where
  tbody : Option Tbody
deriving DecidableEq, Repr

/-- A parsed page: `dataGrid` is `none` when the DataGrid table is absent. -/
structure Soup where
  dataGrid : Option DataGridTable
deriving DecidableEq, Repr

/-! ### parse_results_table (scraper.py lines 20-76) -/

/-- scraper.py lines 62-67, body of the option scan for one option whose
text contains "Images":
  try: value_json = json.loads(option['value']); plat_link = value_json.get('url','')
  except (json.JSONDecodeError, KeyError): log and leave plat_link unchanged.
A missing value attribute raises KeyError (caught); a decode failure raises
JSONDecodeError (caught); a valid non-object JSON value makes
`value_json.get` raise AttributeError, which is NOT in the except tuple and
so propagates. -/
def scanOption (cur : String) (opt : OptionTag) : Except String String :=
  if pyContains opt.text "Images" then
    match opt.value with
    | none => Except.ok cur
    | some JsonLoads.decodeError => Except.ok cur
    | some (JsonLoads.obj fields) => Except.ok (dictGetD fields "url" "")
    | some JsonLoads.nonObj => Except.error "AttributeError"
  else Except.ok cur

/-- scraper.py lines 61-67: `for option in links_select.find_all('option')`
with `plat_link` threaded through; the scan does NOT stop at the first
match. -/
def scanOptions (opts : List OptionTag) (cur : String) : Except String String :=
  match opts with
  | [] => Except.ok cur
  | o :: rest =>
    match scanOption cur o with
    | Except.ok c => scanOptions rest c
    | Except.error e => Except.error e

/-- scraper.py lines 70-72: `for i, header in enumerate(headers[2:], start=1)`
reading `cols[i]`; `cols[i]` out of range raises IndexError. -/
def fillRemaining (d : PermitRecord) (hs : List String) (i : Nat) (cols : List Cell) :
    Except String PermitRecord :=
  match hs with
  | [] => Except.ok d
  | h :: rest =>
    match cols[i]? with
    | none => Except.error "IndexError"
    | some c => fillRemaining (dictSet d h (normalizeCellText c.text)) rest (i + 1) cols

/-- scraper.py lines 48-74, the body of the data-row loop.  Returns
`ok none` for a row skipped by `if not cols: continue`, `ok (some rec)`
for a parsed record, `error` for an uncaught exception. -/
def processDataRow (headers : List String) (row : Tr) : Except String (Option PermitRecord) :=
  match row.tds with
  | [] => Except.ok none
  | c0 :: _ =>
    let apiNo := match c0.aText with
      | some t => pyStrip t
      | none => ""
    let platLinkE := match c0.selectOpts with
      | none => Except.ok ""
      | some opts => scanOptions opts ""
    match platLinkE with
    | Except.error e => Except.error e
    | Except.ok platLink =>
      let d0 := dictSet (dictSet [] "API NO." apiNo) "PlatLink" platLink
      match fillRemaining d0 (headers.drop 2) 1 row.tds with
      | Except.error e => Except.error e
      | Except.ok d => Except.ok (some d)

/-- The data-row loop of scraper.py lines 48-74, accumulating
`permits_on_page`. -/
def parseDataRows (headers : List String) : List Tr → Except String (List PermitRecord)
  | [] => Except.ok []
  | r :: rest =>
    match processDataRow headers r with
    | Except.error e => Except.error e
    | Except.ok none => parseDataRows headers rest
    | Except.ok (some rec) =>
      match parseDataRows headers rest with
      | Except.error e => Except.error e
      | Except.ok recs => Except.ok (rec :: recs)

/-- scraper.py lines 20-76, parse_results_table.  Absent table or tbody and
fewer than 3 direct rows return the empty list; line 43
`headers[0] = 'API NO.'` raises IndexError when the header row has no th
cells; line 44 inserts 'PlatLink' at position 1. -/
def parse_results_table (soup : Soup) : Except String (List PermitRecord) :=
  match soup.dataGrid with
  | none => Except.ok []
  | some table =>
    match table.tbody with
    | none => Except.ok []
    | some body =>
      match body.trs with
      | r0 :: r1 :: d0 :: drest =>
        let _ := r0
        let headers0 := r1.thTexts.map pyStrip
        match headers0 with
        | [] => Except.error "IndexError"
        | _ :: htail =>
          let headers := "API NO." :: "PlatLink" :: htail
          parseDataRows headers (d0 :: drest)
      | _ => Except.ok []

/-! ### get_county_codes (scraper.py lines 12-18) -/

/-- scraper.py lines 12-18: the static county name to county code mapping. -/
def get_county_codes : List (String × String) :=
  [("ANDREWS", "003"), ("ECTOR", "135"), ("MIDLAND", "329"), ("MARTIN", "317"),
   ("HOWARD", "227"), ("GLASSCOCK", "173"), ("REAGAN", "383"), ("UPTON", "461"),
   ("CRANE", "103"), ("WARD", "475"), ("WINKLER", "495"), ("LOVING", "301"),
   ("REEVES", "389"), ("PECOS", "371")]

/-- Python dict lookup `county_codes_map[county]` guarded by
`county in county_codes_map` (scraper.py line 83). -/
def countyLookup (name : String) : Option String :=
  (get_county_codes.find? (fun kv => kv.1 = name)).map (fun kv => kv.2)

/-! ### Search session model (Playwright calls of scraper.py lines 91-138) -/

/-- Outcome of one modelled Playwright call: it either returns or raises. -/
inductive StepResult (α : Type) where
  | ok (a : α)
  | raise (msg : String)
deriving DecidableEq, Repr

/-- Session interactions performed by scrape_permits; each modelled call
emits one event, so theorems can state which interactions happened. -/
inductive SearchEvent where
  | sessionOpen
  | goto
  | selectCounties (codes : List String)
  | fillFrom (s : String)
  | fillTo (s : String)
  | submit
  | waitTable
  | getContent
  | clickNext
  | waitIdle
  | screenshot
  | browserClose
deriving DecidableEq, Repr

/-- What the site serves for one iteration of the pagination loop
(scraper.py lines 110-131): the rendered content handed to BeautifulSoup,
the count of the Next locator, and the outcomes of clicking Next and of
the network-idle wait. -/
structure PageView where
  contentResult : StepResult Soup
  nextCount : Nat
  clickNextResult : StepResult Unit
  waitIdleResult : StepResult Unit

/-- Behaviour of the whole search session: the outcome of each fixed setup
call (scraper.py lines 97-106), the successive page renders, and the
outcomes of the diagnostic screenshot (line 135) and browser close
(line 138). -/
structure SearchSession where
  gotoResult : StepResult Unit
  selectResult : StepResult Unit
  fillFromResult : StepResult Unit
  fillToResult : StepResult Unit
  submitResult : StepResult Unit
  waitTableResult : StepResult Unit
  views : List PageView
  screenshotResult : StepResult Unit
  closeResult : StepResult Unit

/-- The `date_range` entry of the configuration (main.py ScrapeConfig). -/
structure DateRange where
  fromDate : String
  toDate : String

/-- The scrape configuration `{counties, date_range}` (main.py ScrapeConfig,
consumed by scraper.py lines 83, 100-101). -/
structure Config where
  counties : List String
  date_range : DateRange

/-- scraper.py lines 109-131, the pagination while-loop.  Returns the
accumulated records, the events of the loop, and `some e` when an
exception `e` was raised inside the loop (to be caught at line 133).
The model supplies finitely many page renders; a run that exhausts them is
outside the modelled site behaviours and is reported as a raise. -/
def searchLoop : List PageView → List PermitRecord →
    List PermitRecord × List SearchEvent × Option String
  | [], acc => (acc, [], some "model: no further page renders")
  | v :: rest, acc =>
    match v.contentResult with
    | StepResult.raise e => (acc, [SearchEvent.getContent], some e)
    | StepResult.ok soup =>
      match parse_results_table soup with
      | Except.error e => (acc, [SearchEvent.getContent], some e)
      | Except.ok permits =>
        if permits.isEmpty then (acc, [SearchEvent.getContent], none)
        else
          if v.nextCount > 0 then
            match v.clickNextResult with
            | StepResult.raise e =>
              (acc ++ permits, [SearchEvent.getContent, SearchEvent.clickNext], some e)
            | StepResult.ok _ =>
              match v.waitIdleResult with
              | StepResult.raise e =>
                (acc ++ permits,
                 [SearchEvent.getContent, SearchEvent.clickNext, SearchEvent.waitIdle], some e)
              | StepResult.ok _ =>
                let r := searchLoop rest (acc ++ permits)
                (r.1, SearchEvent.getContent :: SearchEvent.clickNext ::
                      SearchEvent.waitIdle :: r.2.1, r.2.2)
          else (acc ++ permits, [SearchEvent.getContent], none)

/-- scraper.py lines 96-131, the body of the try block: goto, county
select, the two date fills, submit, the results-table wait, then the
pagination loop.  Returns accumulated records, events, and the raised
exception if any. -/
def tryBodyRun (dr : DateRange) (sess : SearchSession) (codes : List String) :
    List PermitRecord × List SearchEvent × Option String :=
  match sess.gotoResult with
  | StepResult.raise e => ([], [SearchEvent.goto], some e)
  | StepResult.ok _ =>
  match sess.selectResult with
  | StepResult.raise e => ([], [SearchEvent.goto, SearchEvent.selectCounties codes], some e)
  | StepResult.ok _ =>
  match sess.fillFromResult with
  | StepResult.raise e =>
    ([], [SearchEvent.goto, SearchEvent.selectCounties codes,
          SearchEvent.fillFrom dr.fromDate], some e)
  | StepResult.ok _ =>
  match sess.fillToResult with
  | StepResult.raise e =>
    ([], [SearchEvent.goto, SearchEvent.selectCounties codes,
          SearchEvent.fillFrom dr.fromDate, SearchEvent.fillTo dr.toDate], some e)
  | StepResult.ok _ =>
  match sess.submitResult with
  | StepResult.raise e =>
    ([], [SearchEvent.goto, SearchEvent.selectCounties codes,
          SearchEvent.fillFrom dr.fromDate, SearchEvent.fillTo dr.toDate,
          SearchEvent.submit], some e)
  | StepResult.ok _ =>
  match sess.waitTableResult with
  | StepResult.raise e =>
    ([], [SearchEvent.goto, SearchEvent.selectCounties codes,
          SearchEvent.fillFrom dr.fromDate, SearchEvent.fillTo dr.toDate,
          SearchEvent.submit, SearchEvent.waitTable], some e)
  | StepResult.ok _ =>
    let r := searchLoop sess.views []
    (r.1,
     SearchEvent.goto :: SearchEvent.selectCounties codes ::
     SearchEvent.fillFrom dr.fromDate :: SearchEvent.fillTo dr.toDate ::
     SearchEvent.submit :: SearchEvent.waitTable :: r.2.1,
     r.2.2)

/-- scraper.py lines 85-141 given the already-resolved county codes:
the early return on no codes (lines 85-87), the session (line 91-93), the
try body, the except branch taking the diagnostic screenshot (line 135),
and the finally branch closing the browser (line 138).  Python finally
semantics: an exception raised by the screenshot or by browser.close()
replaces the pending outcome and propagates. -/
def scrapeWithCodes (codes : List String) (dr : DateRange) (sess : SearchSession) :
    Except String (List PermitRecord) × List SearchEvent :=
  if codes.isEmpty then (Except.ok [], [])
  else
    let r := tryBodyRun dr sess codes
    let evs := SearchEvent.sessionOpen :: r.2.1
    match r.2.2 with
    | none =>
      match sess.closeResult with
      | StepResult.raise e => (Except.error e, evs ++ [SearchEvent.browserClose])
      | StepResult.ok _ => (Except.ok r.1, evs ++ [SearchEvent.browserClose])
    | some _ =>
      match sess.screenshotResult with
      | StepResult.raise e2 =>
        match sess.closeResult with
        | StepResult.raise e3 =>
          (Except.error e3, evs ++ [SearchEvent.screenshot, SearchEvent.browserClose])
        | StepResult.ok _ =>
          (Except.error e2, evs ++ [SearchEvent.screenshot, SearchEvent.browserClose])
      | StepResult.ok _ =>
        match sess.closeResult with
        | StepResult.raise e3 =>
          (Except.error e3, evs ++ [SearchEvent.screenshot, SearchEvent.browserClose])
        | StepResult.ok _ =>
          (Except.ok r.1, evs ++ [SearchEvent.screenshot, SearchEvent.browserClose])

/-- scraper.py lines 79-141, scrape_permits.  Line 83 resolves the
configured county names: unknown names are dropped by the
`if county in county_codes_map` guard.  The result list stands for the
returned DataFrame's rows; the event list records every session
interaction performed. -/
def scrape_permits (config : Config) (sess : SearchSession) :
    Except String (List PermitRecord) × List SearchEvent :=
  scrapeWithCodes (config.counties.filterMap countyLookup) config.date_range sess

/-! ### download_plat_files (scraper.py lines 146-234) -/

/-- The fields of one DataFrame row that download_plat_files reads
(scraper.py lines 161-163).  `platLink` and `apiNo` are the row values,
with the empty string standing for a missing or empty value (both are
falsy in the guards of line 165).  `county` is `none` when the row has no
County field, making `row.get('County', 'UnknownCounty')` return the
sentinel. -/
structure PlatRow where
  platLink : String
  apiNo : String
  county : Option String
deriving DecidableEq, Repr

/-- Session interactions performed by download_plat_files for one record.
`subDocInteraction rn` stands for the scroll / wait / click / context-menu
/ download-click sequence of scraper.py lines 195-225 for the sub-document
with record number `rn`; `saveFile p` is `download.save_as(file_path)`. -/
inductive PlatEvent where
  | sessionOpen
  | goto (url : String)
  | waitActionMenu
  | subDocInteraction (rn : String)
  | saveFile (path : String)
  | browserClose
deriving DecidableEq, Repr

/-- What the document-viewer site does when the orchestrator navigates to
one record's plat link: the outcome of page.goto (line 183), of the
action-menu visibility wait (line 187), the record numbers enumerated by
evaluate_all (lines 189-191), and per record number the outcome of the
whole sub-document interaction of lines 195-225 (ok means the download
completed and the artifact was saved; raise means one of those session
calls raised). -/
structure PlatPageBehavior where
  gotoResult : StepResult Unit
  waitMenuResult : StepResult Unit
  recordNumbers : List String
  subResult : String → StepResult Unit

/-- scraper.py lines 195-225, the sub-document for-loop.  The filesystem is
the list of existing file paths; a completed download adds
`download_dir/<api>_<rn>.tif`.  Returns the new filesystem, the events,
and `some e` when a session call raised (to be caught by the per-record
except at line 227); files saved before the raise remain on disk. -/
def subDocLoop (beh : PlatPageBehavior) (downloadDir apiNo : String) :
    List String → List String → List String × List PlatEvent × Option String
  | [], fs => (fs, [], none)
  | rn :: rest, fs =>
    match beh.subResult rn with
    | StepResult.raise e => (fs, [PlatEvent.subDocInteraction rn], some e)
    | StepResult.ok _ =>
      let fp := pyPathJoin downloadDir (apiNo ++ "_" ++ rn ++ ".tif")
      let r := subDocLoop beh downloadDir apiNo rest (fp :: fs)
      (r.1, PlatEvent.subDocInteraction rn :: PlatEvent.saveFile fp :: r.2.1, r.2.2)

/-- The skip-check target path of scraper.py lines 171-173:
`os.path.join('data', 'plat_files', county)` joined with
`f"{api_no}.tif"`, county defaulting to 'UnknownCounty'. -/
def platTargetPath (row : PlatRow) : String :=
  pyPathJoin (pyPathJoin (pyPathJoin "data" "plat_files") (row.county.getD "UnknownCounty"))
    (row.apiNo ++ ".tif")

/-- The save path of scraper.py lines 215-216 for one sub-document:
`os.path.join(download_dir, f"{api_no}_{record_num}.tif")`. -/
def platSubDocPath (row : PlatRow) (rn : String) : String :=
  pyPathJoin (pyPathJoin (pyPathJoin "data" "plat_files") (row.county.getD "UnknownCounty"))
    (row.apiNo ++ "_" ++ rn ++ ".tif")

/-- scraper.py lines 160-229, the per-record body of the download loop.
Returns the new filesystem, the entries appended to `plat_file_paths` for
this record, and the session events for this record.  Note the source
appends an entry on the missing-link path (line 167), on the
already-downloaded path (line 178) and in the per-record except handler
(line 229), but appends nothing when the try block succeeds. -/
def processRecord (row : PlatRow) (beh : PlatPageBehavior) (fs : List String) :
    List String × List String × List PlatEvent :=
  if row.platLink = "" ∨ row.apiNo = "" then (fs, [""], [])
  else
    let county := row.county.getD "UnknownCounty"
    let download_dir := pyPathJoin (pyPathJoin "data" "plat_files") county
    let file_path := pyPathJoin download_dir (row.apiNo ++ ".tif")
    if file_path ∈ fs then (fs, [file_path], [])
    else
      match beh.gotoResult with
      | StepResult.raise _ => (fs, [""], [PlatEvent.goto row.platLink])
      | StepResult.ok _ =>
        match beh.waitMenuResult with
        | StepResult.raise _ =>
          (fs, [""], [PlatEvent.goto row.platLink, PlatEvent.waitActionMenu])
        | StepResult.ok _ =>
          let r := subDocLoop beh download_dir row.apiNo beh.recordNumbers fs
          match r.2.2 with
          | some _ =>
            (r.1, [""], PlatEvent.goto row.platLink :: PlatEvent.waitActionMenu :: r.2.1)
          | none =>
            (r.1, [], PlatEvent.goto row.platLink :: PlatEvent.waitActionMenu :: r.2.1)

/-- scraper.py lines 160-229, the `for _, row in df.iterrows()` loop over
all records, threading the filesystem and concatenating the outcome
entries and events. -/
def runRecords : List (PlatRow × PlatPageBehavior) → List String →
    List String × List String × List PlatEvent
  | [], fs => (fs, [], [])
  | (row, beh) :: rest, fs =>
    let r := processRecord row beh fs
    let rr := runRecords rest r.1
    (rr.1, r.2.1 ++ rr.2.1, r.2.2 ++ rr.2.2)

/-- scraper.py lines 146-234, download_plat_files.  After the loop and
browser.close(), line 233 `df['PlatFilePath'] = plat_file_paths` requires
the outcome list to have exactly one entry per DataFrame row; pandas
raises ValueError otherwise.  The first component is the resulting
DataFrame (each input row zipped with its PlatFilePath) or that error;
the second the final filesystem; the third the session events. -/
def download_plat_files (rows : List (PlatRow × PlatPageBehavior)) (fs : List String) :
    Except String (List (PlatRow × String)) × List String × List PlatEvent :=
  let r := runRecords rows fs
  let evs := PlatEvent.sessionOpen :: r.2.2 ++ [PlatEvent.browserClose]
  if r.2.1.length = rows.length then
    (Except.ok ((rows.map Prod.fst).zip r.2.1), r.1, evs)
  else
    (Except.error "ValueError: Length of values does not match length of index", r.1, evs)

/-! ### Helper predicates and lemmas -/

/-- An option is parse-safe when, if its text contains "Images", its value
attribute is not valid non-object JSON (the one case where the scan of
scraper.py lines 61-67 raises an uncaught AttributeError). -/
def optParseSafe (o : OptionTag) : Prop :=
  pyContains o.text "Images" = true → o.value ≠ some JsonLoads.nonObj

instance : DecidablePred optParseSafe := fun o => by
  unfold optParseSafe; infer_instance

/-- The value attribute yields no url: it is absent, fails to decode, or is
a JSON object without a "url" field. -/
def valueNoUrl : Option JsonLoads → Bool
  | none => true
  | some JsonLoads.decodeError => true
  | some (JsonLoads.obj fields) => fields.all (fun kv => kv.1 ≠ "url")
  | some JsonLoads.nonObj => false

/-- An option never contributes a non-empty url: if its text contains
"Images" its value is absent, undecodable, or an object without "url". -/
def optNoUrl (o : OptionTag) : Prop :=
  pyContains o.text "Images" = true → valueNoUrl o.value = true

instance : DecidablePred optNoUrl := fun o => by
  unfold optNoUrl; infer_instance

/-- Pure description of the option scan when no exception occurs: each
"Images" option whose value is a JSON object overwrites the current link
with that object's url (default empty); every other option leaves it. -/
def linkFold (cur : String) : List OptionTag → String
  | [] => cur
  | o :: rest =>
    if pyContains o.text "Images" then
      match o.value with
      | some (JsonLoads.obj fields) => linkFold (dictGetD fields "url" "") rest
      | _ => linkFold cur rest
    else linkFold cur rest

/-- The scan of scraper.py lines 61-67 never raises on parse-safe options
and computes `linkFold`. -/
theorem scanOptions_safe (opts : List OptionTag) (cur : String)
    (h : ∀ o ∈ opts, optParseSafe o) :
    scanOptions opts cur = Except.ok (linkFold cur opts) := by
  induction opts generalizing cur with
  | nil => rfl
  | cons o rest ih =>
    have ho : optParseSafe o := h o (List.mem_cons_self o rest)
    have hrest : ∀ o2 ∈ rest, optParseSafe o2 := fun o2 hm => h o2 (List.mem_cons_of_mem o hm)
    by_cases himg : pyContains o.text "Images" = true
    · cases hv : o.value with
      | none =>
        simp only [scanOptions, scanOption, himg, hv, if_true, linkFold]
        rw [ih cur hrest]
      | some j =>
        cases j with
        | decodeError =>
          simp only [scanOptions, scanOption, himg, hv, if_true, linkFold]
          rw [ih cur hrest]
        | obj fields =>
          simp only [scanOptions, scanOption, himg, hv, if_true, linkFold]
          rw [ih (dictGetD fields "url" "") hrest]
        | nonObj => exact absurd hv (ho himg)
    · have himg2 : pyContains o.text "Images" = false := by
        cases hb : pyContains o.text "Images"
        · rfl
        · exact absurd hb himg
      simp only [scanOptions, scanOption, himg2, Bool.false_eq_true, if_false, linkFold]
      rw [ih cur hrest]

/-- Predicate: the option's text contains "Images" and its value attribute
parses as a JSON object. -/
def isParsedImages (o : OptionTag) : Bool :=
  pyContains o.text "Images" &&
    (match o.value with
     | some (JsonLoads.obj _) => true
     | _ => false)

/-- The url an option contributes: the "url" field of its JSON-object
value, empty when absent. -/
def optUrl (o : OptionTag) : String :=
  match o.value with
  | some (JsonLoads.obj fields) => dictGetD fields "url" ""
  | _ => ""

/-- The value described by the spec for C10: the url taken from the last
"Images" option whose value attribute parses (as a JSON object), or the
empty string when there is none. -/
def specLastParsedUrl (opts : List OptionTag) : String :=
  match (opts.filter isParsedImages).getLast? with
  | none => ""
  | some o => optUrl o

theorem linkFold_eq_foldl (opts : List OptionTag) (cur : String) :
    linkFold cur opts = (opts.filter isParsedImages).foldl (fun _ o => optUrl o) cur := by
  induction opts generalizing cur with
  | nil => rfl
  | cons o rest ih =>
    by_cases himg : pyContains o.text "Images" = true
    · cases hv : o.value with
      | none =>
        have hp : isParsedImages o = false := by simp [isParsedImages, hv]
        simp only [linkFold, himg, if_true, hv, List.filter_cons, hp]
        exact ih cur
      | some j =>
        cases j with
        | decodeError =>
          have hp : isParsedImages o = false := by simp [isParsedImages, hv]
          simp only [linkFold, himg, if_true, hv, List.filter_cons, hp]
          exact ih cur
        | obj fields =>
          have hp : isParsedImages o = true := by simp [isParsedImages, hv, himg]
          simp only [linkFold, himg, if_true, hv, List.filter_cons, hp, List.foldl_cons]
          have : optUrl o = dictGetD fields "url" "" := by simp [optUrl, hv]
          rw [← this]
          exact ih (optUrl o)
        | nonObj =>
          have hp : isParsedImages o = false := by simp [isParsedImages, hv]
          simp only [linkFold, himg, if_true, hv, List.filter_cons, hp]
          exact ih cur
    · have himg2 : pyContains o.text "Images" = false := by
        cases hb : pyContains o.text "Images"
        · rfl
        · exact absurd hb himg
      have hp : isParsedImages o = false := by simp [isParsedImages, himg2]
      simp only [linkFold, himg2, Bool.false_eq_true, if_false, List.filter_cons, hp]
      exact ih cur

theorem foldl_last_wins (l : List OptionTag) (cur : String) :
    l.foldl (fun _ o => optUrl o) cur =
      (match l.getLast? with
       | none => cur
       | some o => optUrl o) := by
  induction l generalizing cur with
  | nil => rfl
  | cons a l ih =>
    cases l with
    | nil => rfl
    | cons b l2 =>
      rw [List.foldl_cons, ih (optUrl a), List.getLast?_cons_cons]
      rcases hg : (b :: l2).getLast? with _ | o
      · exact absurd hg (by simp)
      · rfl

/-- Under parse-safety the scan returns exactly the spec's last-parsed url. -/
theorem scanOptions_eq_specLastParsedUrl (opts : List OptionTag)
    (h : ∀ o ∈ opts, optParseSafe o) :
    scanOptions opts "" = Except.ok (specLastParsedUrl opts) := by
  rw [scanOptions_safe opts "" h, linkFold_eq_foldl, foldl_last_wins]
  rfl

/-- When no "url" key is available anywhere, the fold stays empty. -/
theorem linkFold_noUrl (opts : List OptionTag) (h : ∀ o ∈ opts, optNoUrl o) :
    linkFold "" opts = "" := by
  induction opts with
  | nil => rfl
  | cons o rest ih =>
    have ho : optNoUrl o := h o (List.mem_cons_self o rest)
    have hrest : ∀ o2 ∈ rest, optNoUrl o2 := fun o2 hm => h o2 (List.mem_cons_of_mem o hm)
    by_cases himg : pyContains o.text "Images" = true
    · cases hv : o.value with
      | none => simp only [linkFold, himg, if_true, hv]; exact ih hrest
      | some j =>
        cases j with
        | decodeError => simp only [linkFold, himg, if_true, hv]; exact ih hrest
        | obj fields =>
          have hall : fields.all (fun kv => decide (kv.1 ≠ "url")) = true := by
            have := ho himg
            rw [hv] at this
            exact this
          have hget : dictGetD fields "url" "" = "" := by
            unfold dictGetD
            have hnone : fields.find? (fun kv => kv.1 = "url") = none := by
              rw [List.find?_eq_none]
              intro kv hm
              have := (List.all_eq_true.mp hall) kv hm
              simpa using this
            rw [hnone]
          simp only [linkFold, himg, if_true, hv, hget]
          exact ih hrest
        | nonObj =>
          have := ho himg
          rw [hv] at this
          simp [valueNoUrl] at this
    · have himg2 : pyContains o.text "Images" = false := by
        cases hb : pyContains o.text "Images"
        · rfl
        · exact absurd hb himg
      simp only [linkFold, himg2, Bool.false_eq_true, if_false]
      exact ih hrest

/-- The positional cell loop succeeds whenever the row has enough cells. -/
theorem fillRemaining_isOk (hs : List String) (d : PermitRecord) (i : Nat)
    (cols : List Cell) (h : i + hs.length ≤ cols.length) :
    ∃ d2, fillRemaining d hs i cols = Except.ok d2 := by
  induction hs generalizing d i with
  | nil => exact ⟨d, rfl⟩
  | cons hd rest ih =>
    have hi : i < cols.length := by
      simp only [List.length_cons] at h
      omega
    have hsome : cols[i]? = some cols[i] := List.getElem?_eq_getElem hi
    have hrec := ih (dictSet d hd (normalizeCellText cols[i].text)) (i + 1)
      (by simp only [List.length_cons] at h; omega)
    obtain ⟨d2, hd2⟩ := hrec
    refine ⟨d2, ?_⟩
    unfold fillRemaining
    rw [hsome]
    exact hd2

/-- A data row is safe for a header cell count `hdrCount` when it has no
cells (it is skipped) or it has at least `hdrCount` cells and the options
of its first cell's select are parse-safe. -/
def rowSafe (hdrCount : Nat) (r : Tr) : Prop :=
  r.tds = [] ∨
    (hdrCount ≤ r.tds.length ∧
      ∀ o ∈ (r.tds.head?.elim [] fun c => c.selectOpts.getD []), optParseSafe o)

instance (hdrCount : Nat) : DecidablePred (rowSafe hdrCount) := fun r => by
  unfold rowSafe; infer_instance

/-- Unfolding equation of `processDataRow` on a row with a first cell. -/
theorem processDataRow_cons (headers : List String) (ths : List String)
    (c0 : Cell) (cs : List Cell) :
    processDataRow headers ⟨ths, c0 :: cs⟩ =
      match (match c0.selectOpts with
             | none => Except.ok ""
             | some opts => scanOptions opts "") with
      | Except.error e => Except.error e
      | Except.ok platLink =>
        match fillRemaining
            (dictSet (dictSet [] "API NO."
              (match c0.aText with | some t => pyStrip t | none => "")) "PlatLink" platLink)
            (headers.drop 2) 1 (c0 :: cs) with
        | Except.error e => Except.error e
        | Except.ok d => Except.ok (some d) := rfl

/-- One safe data row never raises. -/
theorem processDataRow_isOk (hdrCount : Nat) (hpos : 1 ≤ hdrCount)
    (headers : List String) (hlen : (headers.drop 2).length = hdrCount - 1)
    (r : Tr) (hr : rowSafe hdrCount r) :
    ∃ res, processDataRow headers r = Except.ok res := by
  obtain ⟨ths, tds⟩ := r
  cases tds with
  | nil => exact ⟨none, rfl⟩
  | cons c0 cs =>
    rcases hr with hnil | ⟨hle, hopts⟩
    · cases hnil
    · simp only [List.head?_cons, Option.elim_some] at hopts
      have hscan : ∃ pl, (match c0.selectOpts with
          | none => Except.ok ""
          | some opts => scanOptions opts "") = Except.ok pl := by
        cases hso : c0.selectOpts with
        | none => exact ⟨"", rfl⟩
        | some opts =>
          rw [hso] at hopts
          simp only [Option.getD_some] at hopts
          exact ⟨linkFold "" opts, scanOptions_safe opts "" hopts⟩
      obtain ⟨pl, hpl⟩ := hscan
      have hfill := fillRemaining_isOk (headers.drop 2)
        (dictSet (dictSet [] "API NO."
          (match c0.aText with | some t => pyStrip t | none => "")) "PlatLink" pl)
        1 (c0 :: cs)
        (by rw [hlen]; simp only [List.length_cons] at hle ⊢; omega)
      obtain ⟨d2, hd2⟩ := hfill
      refine ⟨some d2, ?_⟩
      simp only [processDataRow_cons, hpl, hd2]

/-- The data-row loop never raises over safe rows. -/
theorem parseDataRows_isOk (hdrCount : Nat) (hpos : 1 ≤ hdrCount)
    (headers : List String) (hlen : (headers.drop 2).length = hdrCount - 1)
    (rows : List Tr) (hrows : ∀ r ∈ rows, rowSafe hdrCount r) :
    ∃ recs, parseDataRows headers rows = Except.ok recs := by
  induction rows with
  | nil => exact ⟨[], rfl⟩
  | cons r rest ih =>
    obtain ⟨res, hres⟩ := processDataRow_isOk hdrCount hpos headers hlen r
      (hrows r (List.mem_cons_self r rest))
    obtain ⟨recs, hrecs⟩ := ih (fun r2 hm => hrows r2 (List.mem_cons_of_mem r hm))
    cases res with
    | none => exact ⟨recs, by unfold parseDataRows; rw [hres, hrecs]⟩
    | some rec => exact ⟨rec :: recs, by unfold parseDataRows; rw [hres, hrecs]⟩

/-- Dropping the elements on which `f` returns none does not change
`filterMap f`. -/
theorem filterMap_filter_isSome {α β : Type} (f : α → Option β) (l : List α) :
    (l.filter (fun x => (f x).isSome)).filterMap f = l.filterMap f := by
  induction l with
  | nil => rfl
  | cons a l ih =>
    cases hf : f a with
    | none =>
      rw [List.filter_cons, List.filterMap_cons, hf]
      simp only [hf, Option.isSome_none, Bool.false_eq_true, if_false]
      exact ih
    | some b =>
      rw [List.filter_cons, List.filterMap_cons, hf]
      simp only [hf, Option.isSome_some, if_true]
      rw [List.filterMap_cons, hf]
      rw [ih]

/-- Events of a fully successful sub-document loop, one interaction and one
save per discovered record number. -/
def subDocEvents (row : PlatRow) : List String → List PlatEvent
  | [] => []
  | rn :: rest =>
    PlatEvent.subDocInteraction rn :: PlatEvent.saveFile (platSubDocPath row rn) ::
      subDocEvents row rest

/-- A fully successful sub-document loop saves one file per record number
(in discovery order) and raises nothing. -/
theorem subDocLoop_all_ok (row : PlatRow) (beh : PlatPageBehavior)
    (rns : List String) (fs : List String)
    (hsub : ∀ rn ∈ rns, beh.subResult rn = StepResult.ok ()) :
    subDocLoop beh (pyPathJoin (pyPathJoin "data" "plat_files") (row.county.getD "UnknownCounty"))
        row.apiNo rns fs =
      ((rns.map (platSubDocPath row)).reverse ++ fs, subDocEvents row rns, none) := by
  induction rns generalizing fs with
  | nil => rfl
  | cons rn rest ih =>
    have hok := hsub rn (List.mem_cons_self rn rest)
    have hrest : ∀ rn2 ∈ rest, beh.subResult rn2 = StepResult.ok () :=
      fun rn2 hm => hsub rn2 (List.mem_cons_of_mem rn hm)
    simp only [subDocLoop, hok, ih _ hrest, subDocEvents, platSubDocPath,
      List.map_cons, List.reverse_cons, List.append_assoc, List.singleton_append]

/-! ### Concrete page builder shared by the parser claims -/

/-- A page whose DataGrid table has a blank row, a header row with the
given th texts, and one data row with the given cells (the blank / header
/ data convention of scraper.py lines 34-47). -/
def mkRowPage (ths : List String) (cells : List Cell) : Soup :=
  ⟨some ⟨some ⟨[⟨[], []⟩, ⟨ths, []⟩, ⟨[], cells⟩]⟩⟩⟩

/-- Shape lemma: on a single-header single-data-row page the parser yields
exactly one record whose PlatLink is whatever the option scan returns. -/
theorem parse_mkRowPage (apiText : String) (opts : List OptionTag) (txt : String) (pl : String)
    (hscan : scanOptions opts "" = Except.ok pl) :
    parse_results_table (mkRowPage ["API"] [⟨some apiText, some opts, txt⟩]) =
      Except.ok [[("API NO.", pyStrip apiText), ("PlatLink", pl)]] := by
  simp only [parse_results_table, mkRowPage, List.map_cons, List.map_nil, parseDataRows,
    processDataRow_cons, hscan, fillRemaining, List.drop_succ_cons, List.drop_nil, dictSet]
  simp

/-! ### Claim C4 -/

/-- C4: for every page whose results table is present but whose table body
contains fewer than 3 direct row children, the Parser returns an empty
record sequence (not an error). -/
theorem C4_few_rows_empty (soup : Soup) (table : DataGridTable) (body : Tbody)
    (htab : soup.dataGrid = some table) (hbody : table.tbody = some body)
    (hlt : body.trs.length < 3) :
    parse_results_table soup = Except.ok [] := by
  rcases hb : body.trs with _ | ⟨a, _ | ⟨b, _ | ⟨c, l⟩⟩⟩
  · simp only [parse_results_table, htab, hbody, hb]
  · simp only [parse_results_table, htab, hbody, hb]
  · simp only [parse_results_table, htab, hbody, hb]
  · rw [hb] at hlt
    simp only [List.length_cons] at hlt
    omega

/-- Witness for C4 at a concrete two-row page. -/
theorem C4_few_rows_empty_witness :
    parse_results_table ⟨some ⟨some ⟨[⟨[], []⟩, ⟨["API"], []⟩]⟩⟩⟩ = Except.ok [] :=
  C4_few_rows_empty ⟨some ⟨some ⟨[⟨[], []⟩, ⟨["API"], []⟩]⟩⟩⟩
    ⟨some ⟨[⟨[], []⟩, ⟨["API"], []⟩]⟩⟩ ⟨[⟨[], []⟩, ⟨["API"], []⟩]⟩ rfl rfl (by decide)

/-! ### Claim C2 -/

/-- A three-row page whose single data row has one cell while the header
row has two header cells. -/
def soupShortRow : Soup :=
  ⟨some ⟨some ⟨[⟨[], []⟩, ⟨["A", "B"], []⟩, ⟨[], [⟨none, none, "x"⟩]⟩]⟩⟩⟩

/-- Counterexample to C2 as stated: a data row with fewer cells than the
header-derived column count makes the Parser raise IndexError
(scraper.py line 71, `cols[i]`) instead of degrading. -/
theorem C2_short_row_raises :
    parse_results_table soupShortRow = Except.error "IndexError" := rfl

/-- C2 (amended): the Parser never raises on a page whose header row has
at least one header cell, whose data rows each have either zero cells or
at least as many cells as the header row has header cells, and whose
first-cell select options are parse-safe; in particular a page with only
header rows degrades to an empty sequence and zero-cell rows are skipped.
A data row with a nonzero cell count below the header cell count raises. -/
theorem C2_parser_no_raise_amended (soup : Soup) (table : DataGridTable) (body : Tbody)
    (r0 r1 : Tr) (drows : List Tr)
    (htab : soup.dataGrid = some table) (hbody : table.tbody = some body)
    (hrows : body.trs = r0 :: r1 :: drows)
    (hdr : r1.thTexts ≠ [])
    (hsafe : ∀ r ∈ drows, rowSafe r1.thTexts.length r) :
    ∃ recs, parse_results_table soup = Except.ok recs := by
  cases drows with
  | nil => exact ⟨[], by simp only [parse_results_table, htab, hbody, hrows]⟩
  | cons d0 drest =>
    rcases hth : r1.thTexts with _ | ⟨t0, ts⟩
    · exact absurd hth hdr
    · have hsafe2 : ∀ r ∈ d0 :: drest, rowSafe (t0 :: ts).length r := by
        rw [hth] at hsafe
        exact hsafe
      have hparse := parseDataRows_isOk (t0 :: ts).length (by simp)
        ("API NO." :: "PlatLink" :: ts.map pyStrip)
        (by simp) (d0 :: drest) hsafe2
      obtain ⟨recs, hrecs⟩ := hparse
      refine ⟨recs, ?_⟩
      simp only [parse_results_table, htab, hbody, hrows, hth, List.map_cons]
      exact hrecs

/-- Witness for the amended C2 at a concrete page whose data row has
enough cells. -/
theorem C2_parser_no_raise_amended_witness :
    ∃ recs, parse_results_table
      ⟨some ⟨some ⟨[⟨[], []⟩, ⟨["A", "B"], []⟩,
        ⟨[], [⟨some "42", none, "x"⟩, ⟨none, none, "y"⟩]⟩]⟩⟩⟩ = Except.ok recs :=
  C2_parser_no_raise_amended
    ⟨some ⟨some ⟨[⟨[], []⟩, ⟨["A", "B"], []⟩,
      ⟨[], [⟨some "42", none, "x"⟩, ⟨none, none, "y"⟩]⟩]⟩⟩⟩
    ⟨some ⟨[⟨[], []⟩, ⟨["A", "B"], []⟩,
      ⟨[], [⟨some "42", none, "x"⟩, ⟨none, none, "y"⟩]⟩]⟩⟩
    ⟨[⟨[], []⟩, ⟨["A", "B"], []⟩,
      ⟨[], [⟨some "42", none, "x"⟩, ⟨none, none, "y"⟩]⟩]⟩
    ⟨[], []⟩ ⟨["A", "B"], []⟩ [⟨[], [⟨some "42", none, "x"⟩, ⟨none, none, "y"⟩]⟩]
    rfl rfl rfl (by decide) (by decide)

/-! ### Claim C5 -/

/-- A single-data-row page whose first cell's select has one option whose
text contains "Images" and whose value attribute is valid JSON that is not
an object (e.g. the string "[1, 2]"). -/
def soupNonObjOption : Soup :=
  mkRowPage ["API"] [⟨some "42-11111", some [⟨"View Images", some JsonLoads.nonObj⟩], ""⟩]

/-- Counterexample to C5 as stated: an Images option whose value attribute
is valid JSON but not an object (so it certainly lacks the url key) makes
the Parser raise AttributeError (scraper.py line 65, `value_json.get` on a
non-dict), instead of returning a record with an empty platLink. -/
theorem C5_nonobject_value_raises :
    parse_results_table soupNonObjOption = Except.error "AttributeError" := rfl

/-- C5 (amended): for a data row whose first cell's selection control has
Images options whose value attributes each are absent, not valid JSON, or
a valid JSON object without the url key, the Parser returns a record for
the row with platLink equal to the empty string and does not raise; the
decode or key-lookup failure is never fatal to the row.  (An option value
that is valid JSON but not an object raises instead, and an Images option
carrying a url would be taken, last parsed one winning.) -/
theorem C5_invalid_json_empty_platlink_amended (apiText : String) (opts : List OptionTag)
    (hnou : ∀ o ∈ opts, optNoUrl o) :
    parse_results_table (mkRowPage ["API"] [⟨some apiText, some opts, ""⟩]) =
      Except.ok [[("API NO.", pyStrip apiText), ("PlatLink", "")]] := by
  have hsafe : ∀ o ∈ opts, optParseSafe o := by
    intro o hm himg hval
    have := hnou o hm himg
    rw [hval] at this
    simp [valueNoUrl] at this
  have hscan : scanOptions opts "" = Except.ok "" := by
    rw [scanOptions_safe opts "" hsafe, linkFold_noUrl opts hnou]
  exact parse_mkRowPage apiText opts "" "" hscan

/-- Witness for the amended C5: one Images option with an undecodable
value and one with an object value lacking url. -/
theorem C5_invalid_json_empty_platlink_amended_witness :
    parse_results_table (mkRowPage ["API"]
      [⟨some "42-00123", some [⟨"View Images", some JsonLoads.decodeError⟩,
        ⟨"More Images", some (JsonLoads.obj [("documentId", "77")])⟩], ""⟩]) =
      Except.ok [[("API NO.", pyStrip "42-00123"), ("PlatLink", "")]] :=
  C5_invalid_json_empty_platlink_amended "42-00123"
    [⟨"View Images", some JsonLoads.decodeError⟩,
     ⟨"More Images", some (JsonLoads.obj [("documentId", "77")])⟩]
    (by decide)

/-! ### Claim C10 -/

/-- C10: the Parser scans all options of the first cell's selection
control in document order and the record's platLink is the url of the
last option whose text contains "Images" and whose value attribute parses
as JSON (an unparseable later option leaves the value taken from an
earlier parseable one); stated for rows whose Images options are
parse-safe, i.e. never trigger the uncaught AttributeError case. -/
theorem C10_last_parsed_option_wins (apiText : String) (opts : List OptionTag)
    (hsafe : ∀ o ∈ opts, optParseSafe o) :
    scanOptions opts "" = Except.ok (specLastParsedUrl opts) ∧
    parse_results_table (mkRowPage ["API"] [⟨some apiText, some opts, ""⟩]) =
      Except.ok [[("API NO.", pyStrip apiText), ("PlatLink", specLastParsedUrl opts)]] := by
  have hscan := scanOptions_eq_specLastParsedUrl opts hsafe
  exact ⟨hscan, parse_mkRowPage apiText opts "" (specLastParsedUrl opts) hscan⟩

/-- Witness for C10: a parseable Images option followed by an unparseable
one; the earlier url survives. -/
theorem C10_last_parsed_option_wins_witness :
    scanOptions [⟨"Images", some (JsonLoads.obj [("url", "http://viewer/A")])⟩,
      ⟨"Images", some JsonLoads.decodeError⟩] "" = Except.ok "http://viewer/A" := by
  have h := (C10_last_parsed_option_wins "42"
    [⟨"Images", some (JsonLoads.obj [("url", "http://viewer/A")])⟩,
     ⟨"Images", some JsonLoads.decodeError⟩] (by decide)).1
  rw [h]
  rfl

/-! ### Claim C6 -/

/-- C6: when no configured county name resolves through the registry,
scrape_permits returns an empty result immediately and performs zero
session interactions (no session is opened); and unknown names are
silently dropped: the run is identical to the run on the configuration
with only the resolvable names. -/
theorem C6_no_resolvable_counties (config : Config) (sess : SearchSession) :
    (config.counties.filterMap countyLookup = [] →
      scrape_permits config sess = (Except.ok [], [])) ∧
    scrape_permits config sess =
      scrape_permits ⟨config.counties.filter (fun c => (countyLookup c).isSome),
        config.date_range⟩ sess := by
  constructor
  · intro h
    unfold scrape_permits
    rw [h]
    rfl
  · show scrapeWithCodes (config.counties.filterMap countyLookup) config.date_range sess =
      scrapeWithCodes
        ((config.counties.filter (fun c => (countyLookup c).isSome)).filterMap countyLookup)
        config.date_range sess
    rw [filterMap_filter_isSome]

/-- An all-succeeding search session with no page renders, used to
instantiate session-quantified theorems. -/
def sessAllOk : SearchSession :=
  ⟨StepResult.ok (), StepResult.ok (), StepResult.ok (), StepResult.ok (),
   StepResult.ok (), StepResult.ok (), [], StepResult.ok (), StepResult.ok ()⟩

/-- Witness for C6: the configuration with only "NOT_A_COUNTY" resolves to
nothing, so the run returns no records and produces no session events. -/
theorem C6_no_resolvable_counties_witness :
    scrape_permits ⟨["NOT_A_COUNTY"], ⟨"01/01/2024", "01/31/2024"⟩⟩ sessAllOk =
      (Except.ok [], []) :=
  (C6_no_resolvable_counties ⟨["NOT_A_COUNTY"], ⟨"01/01/2024", "01/31/2024"⟩⟩ sessAllOk).1
    (by decide)

/-! ### Claim C9 -/

/-- A session whose initial navigation raises and whose diagnostic
screenshot call itself raises as well. -/
def sessScreenshotFails : SearchSession :=
  ⟨StepResult.raise "TimeoutError: goto", StepResult.ok (), StepResult.ok (), StepResult.ok (),
   StepResult.ok (), StepResult.ok (), [], StepResult.raise "Error: screenshot failed",
   StepResult.ok ()⟩

/-- Counterexample to C9 as stated: the screenshot of scraper.py line 135
is not guarded, so when the navigation exception is being handled and the
screenshot call itself raises, the driver does not return the accumulated
records — the screenshot exception propagates to the caller. -/
theorem C9_screenshot_failure_propagates :
    (scrape_permits ⟨["ANDREWS"], ⟨"01/01/2024", "01/31/2024"⟩⟩ sessScreenshotFails).1 =
      Except.error "Error: screenshot failed" := rfl

/-- C9 (amended): any exception raised during the session steps is caught
at the outer level and a diagnostic screenshot is attempted; provided the
screenshot call and the browser close succeed, the driver returns the
records accumulated so far and no exception propagates.  The screenshot
is not best-effort: its own failure (or a close failure) propagates. -/
theorem C9_partial_results_amended (config : Config) (sess : SearchSession) (e : String)
    (hne : (config.counties.filterMap countyLookup).isEmpty = false)
    (herr : (tryBodyRun config.date_range sess
      (config.counties.filterMap countyLookup)).2.2 = some e)
    (hshot : sess.screenshotResult = StepResult.ok ())
    (hclose : sess.closeResult = StepResult.ok ()) :
    scrape_permits config sess =
      (Except.ok (tryBodyRun config.date_range sess
          (config.counties.filterMap countyLookup)).1,
       SearchEvent.sessionOpen ::
         (tryBodyRun config.date_range sess (config.counties.filterMap countyLookup)).2.1 ++
         [SearchEvent.screenshot, SearchEvent.browserClose]) := by
  simp only [scrape_permits, scrapeWithCodes, hne, Bool.false_eq_true, if_false, herr,
    hshot, hclose, List.cons_append]

/-- A session whose initial navigation raises but whose screenshot and
close succeed. -/
def sessGotoFails : SearchSession :=
  ⟨StepResult.raise "TimeoutError: goto", StepResult.ok (), StepResult.ok (), StepResult.ok (),
   StepResult.ok (), StepResult.ok (), [], StepResult.ok (), StepResult.ok ()⟩

/-- Witness for the amended C9: navigation raises, screenshot succeeds,
and the driver returns the (empty) accumulated records with the
screenshot event in the trace. -/
theorem C9_partial_results_amended_witness :
    scrape_permits ⟨["ANDREWS"], ⟨"01/01/2024", "01/31/2024"⟩⟩ sessGotoFails =
      (Except.ok [], [SearchEvent.sessionOpen, SearchEvent.goto, SearchEvent.screenshot,
        SearchEvent.browserClose]) :=
  C9_partial_results_amended ⟨["ANDREWS"], ⟨"01/01/2024", "01/31/2024"⟩⟩ sessGotoFails
    "TimeoutError: goto" (by decide) rfl rfl rfl

/-! ### Claim C7 -/

/-- C7: for a record with a plat link and API number whose target file
(`plat_files/<county>/<apiNumber>.tif` under the data root) already exists
on disk, the orchestrator performs zero session interactions for that
record, records the existing path as the record's outcome (treating it as
already retrieved), and continues with the remaining records, whose
processing is unchanged. -/
theorem C7_existing_file_skips_session (row : PlatRow) (beh : PlatPageBehavior)
    (fs : List String) (rest : List (PlatRow × PlatPageBehavior))
    (hlink : row.platLink ≠ "") (hapi : row.apiNo ≠ "")
    (hex : platTargetPath row ∈ fs) :
    processRecord row beh fs = (fs, [platTargetPath row], []) ∧
    runRecords ((row, beh) :: rest) fs =
      ((runRecords rest fs).1, platTargetPath row :: (runRecords rest fs).2.1,
       (runRecords rest fs).2.2) := by
  have hne : ¬(row.platLink = "" ∨ row.apiNo = "") := not_or.mpr ⟨hlink, hapi⟩
  have hex2 : pyPathJoin (pyPathJoin (pyPathJoin "data" "plat_files")
      (row.county.getD "UnknownCounty")) (row.apiNo ++ ".tif") ∈ fs := hex
  have h1 : processRecord row beh fs = (fs, [platTargetPath row], []) := by
    simp only [processRecord, platTargetPath, hne, if_false, hex2, if_true]
  exact ⟨h1, by simp only [runRecords, h1, List.singleton_append, List.nil_append]⟩

/-- A record and filesystem where the record's target file pre-exists. -/
def rowC7w : PlatRow := ⟨"http://example/x", "X1", some "PECOS"⟩

/-- Witness for C7 at a concrete pre-existing file: the record's outcome
is the existing path, no event is emitted, and the batch continues. -/
theorem C7_existing_file_skips_session_witness :
    processRecord rowC7w ⟨StepResult.ok (), StepResult.ok (), ["1"], fun _ => StepResult.ok ()⟩
        ["data/plat_files/PECOS/X1.tif"] =
      (["data/plat_files/PECOS/X1.tif"], ["data/plat_files/PECOS/X1.tif"], []) ∧
    runRecords [(rowC7w, ⟨StepResult.ok (), StepResult.ok (), ["1"], fun _ => StepResult.ok ()⟩)]
        ["data/plat_files/PECOS/X1.tif"] =
      (["data/plat_files/PECOS/X1.tif"], ["data/plat_files/PECOS/X1.tif"], []) := by
  have h := C7_existing_file_skips_session rowC7w
    ⟨StepResult.ok (), StepResult.ok (), ["1"], fun _ => StepResult.ok ()⟩
    ["data/plat_files/PECOS/X1.tif"] [] (by decide) (by decide) (by decide)
  exact ⟨h.1.trans (by decide), h.2.trans (by decide)⟩

/-! ### Claim C3 -/

/-- C3 (amended): every downloaded sub-document of a processed record is
saved at `data/plat_files/<county>/<apiNumber>_<recordNumber>.tif` — also
in the single-document case; the unsuffixed
`data/plat_files/<county>/<apiNumber>.tif` is computed only as the
pre-existence skip check; the county directory falls back to
"UnknownCounty" when the record has no county field (covered by
`platSubDocPath` via `Option.getD`). -/
theorem C3_download_paths_amended (row : PlatRow) (beh : PlatPageBehavior) (fs : List String)
    (hlink : row.platLink ≠ "") (hapi : row.apiNo ≠ "")
    (hnew : platTargetPath row ∉ fs)
    (hgoto : beh.gotoResult = StepResult.ok ())
    (hwait : beh.waitMenuResult = StepResult.ok ())
    (hsub : ∀ rn ∈ beh.recordNumbers, beh.subResult rn = StepResult.ok ()) :
    processRecord row beh fs =
      ((beh.recordNumbers.map (platSubDocPath row)).reverse ++ fs, [],
       PlatEvent.goto row.platLink :: PlatEvent.waitActionMenu ::
         subDocEvents row beh.recordNumbers) := by
  have hne : ¬(row.platLink = "" ∨ row.apiNo = "") := not_or.mpr ⟨hlink, hapi⟩
  have hnew2 : pyPathJoin (pyPathJoin (pyPathJoin "data" "plat_files")
      (row.county.getD "UnknownCounty")) (row.apiNo ++ ".tif") ∉ fs := hnew
  have hloop := subDocLoop_all_ok row beh beh.recordNumbers fs hsub
  simp only [processRecord, hne, if_false, hnew2, if_true, hgoto, hwait, hloop]

/-- A record with no county field and two sub-documents. -/
def rowC3w : PlatRow := ⟨"http://example/w", "W7", none⟩

/-- Witness for the amended C3: both sub-documents land under the
UnknownCounty sentinel directory with the `_recordNumber` suffix. -/
theorem C3_download_paths_amended_witness :
    processRecord rowC3w ⟨StepResult.ok (), StepResult.ok (), ["1", "2"],
        fun _ => StepResult.ok ()⟩ [] =
      (["data/plat_files/UnknownCounty/W7_2.tif", "data/plat_files/UnknownCounty/W7_1.tif"], [],
       [PlatEvent.goto "http://example/w", PlatEvent.waitActionMenu,
        PlatEvent.subDocInteraction "1",
        PlatEvent.saveFile "data/plat_files/UnknownCounty/W7_1.tif",
        PlatEvent.subDocInteraction "2",
        PlatEvent.saveFile "data/plat_files/UnknownCounty/W7_2.tif"]) :=
  (C3_download_paths_amended rowC3w
    ⟨StepResult.ok (), StepResult.ok (), ["1", "2"], fun _ => StepResult.ok ()⟩ []
    (by decide) (by decide) (by decide) rfl rfl (fun rn hm => rfl)).trans (by decide)

/-- A record whose plat link exposes a single sub-document, numbered "1". -/
def rowSingleDoc : PlatRow := ⟨"http://example/doc", "42", some "HOWARD"⟩

/-- The behaviour of the viewer for `rowSingleDoc`: one sub-document,
every step succeeding. -/
def behSingleDoc : PlatPageBehavior :=
  ⟨StepResult.ok (), StepResult.ok (), ["1"], fun _ => StepResult.ok ()⟩

/-- Counterexample to C3 as stated: in the single-document case the file
is written at `data/plat_files/HOWARD/42_1.tif` (scraper.py lines
215-216 always suffix the record number), not at
`plat_files/HOWARD/42.tif` — that unsuffixed path (with or without the
data root) is never written. -/
theorem C3_single_document_suffixed_path :
    (processRecord rowSingleDoc behSingleDoc []).1 = ["data/plat_files/HOWARD/42_1.tif"] ∧
    "plat_files/HOWARD/42.tif" ∉ (processRecord rowSingleDoc behSingleDoc []).1 ∧
    "data/plat_files/HOWARD/42.tif" ∉ (processRecord rowSingleDoc behSingleDoc []).1 :=
  ⟨rfl, by decide, by decide⟩

/-! ### Claim C1 -/

/-- A record whose retrieval fully succeeds (one sub-document). -/
def rowC1 : PlatRow := ⟨"http://example/view", "42-00001", some "HOWARD"⟩

/-- Viewer behaviour for `rowC1`: every session call succeeds. -/
def behC1 : PlatPageBehavior :=
  ⟨StepResult.ok (), StepResult.ok (), ["1"], fun _ => StepResult.ok ()⟩

/-- C1 (code bug evaluation): a record whose downloads all succeed
contributes ZERO outcome entries — the success path of scraper.py lines
181-225 never appends to plat_file_paths — so one input record yields an
empty outcome list and line 233 `df['PlatFilePath'] = plat_file_paths`
raises the very length-mismatch ValueError the claim says cannot occur. -/
theorem C1_success_contributes_no_outcome :
    (runRecords [(rowC1, behC1)] []).2.1 = [] ∧
    (download_plat_files [(rowC1, behC1)] []).1 =
      Except.error "ValueError: Length of values does not match length of index" :=
  ⟨rfl, rfl⟩

/-! ### Claim C8 -/

/-- A record whose retrieval fully succeeds. -/
def rowC8ok : PlatRow := ⟨"http://example/a", "A1", some "ECTOR"⟩

/-- Viewer behaviour with one sub-document, all calls succeeding. -/
def behC8ok : PlatPageBehavior :=
  ⟨StepResult.ok (), StepResult.ok (), ["1"], fun _ => StepResult.ok ()⟩

/-- A record whose navigation raises. -/
def rowC8fail : PlatRow := ⟨"http://example/b", "B2", some "ECTOR"⟩

/-- Viewer behaviour whose page.goto raises. -/
def behC8fail : PlatPageBehavior :=
  ⟨StepResult.raise "TimeoutError: goto", StepResult.ok (), [], fun _ => StepResult.ok ()⟩

/-- A record whose target file already exists. -/
def rowC8skip : PlatRow := ⟨"http://example/c", "C3", some "ECTOR"⟩

/-- Filesystem in which rowC8skip's target pre-exists. -/
def fsC8 : List String := ["data/plat_files/ECTOR/C3.tif"]

/-- C8 (code bug evaluation): the failing record's exception is caught and
recorded as an empty outcome and processing continues (records after it
are still processed and the skip record gets its correct path), but the
fully successful record BEFORE the failure receives no outcome at all, so
the batch of 3 records yields only 2 outcomes and the final merge raises
ValueError — the successful neighbours do not receive correct outcomes. -/
theorem C8_failing_record_isolation_bug :
    processRecord rowC8fail behC8fail fsC8 =
      (fsC8, [""], [PlatEvent.goto "http://example/b"]) ∧
    (runRecords [(rowC8ok, behC8ok), (rowC8fail, behC8fail), (rowC8skip, behC8ok)] fsC8).2.1 =
      ["", "data/plat_files/ECTOR/C3.tif"] ∧
    (download_plat_files [(rowC8ok, behC8ok), (rowC8fail, behC8fail),
        (rowC8skip, behC8ok)] fsC8).1 =
      Except.error "ValueError: Length of values does not match length of index" :=
  ⟨rfl, rfl, rfl⟩

end Scraper
